import Mathlib

/-!
Shallow embedding of `src/GSM_500hPa_2D_Animation_HTML.py`.

Times are modelled as integer seconds since the Unix epoch (UTC); the
script's `datetime` arithmetic is exact at this granularity (the script
zeroes `second` and `microsecond` wherever it constructs times, and all
offsets are whole hours).  Hour offsets are `Int` (the script uses
negative offsets).  The regridded 2-D arrays produced for one offset and
one quantity are abstracted as a payload `α` produced by a parameter
function `regridded : Int → Qty → α`; the claims about the main loop,
the threshold gate and the frame loop do not depend on the numeric
contents of those arrays, only on which offset/quantity pair each one
came from, which the parameter lets us track exactly.
-/

/-- The three meteorological quantities processed for each offset
(500 hPa geopotential height, 850 hPa temperature, mean-sea-level
pressure), in the order the script processes them (lines 63-77). -/
inductive Qty : Type
  | q500
  | q850
  | qMslp
deriving DecidableEq

/-- Outcome of one iteration of the main `for hour in KEYFRAME_HOURS`
loop (lines 56-87).  `fetchFail`: the `requests.get` or
`raise_for_status` raised, so no temp file was written and nothing was
appended.  `fail500`: the download succeeded (temp file written) but the
500 hPa open/regrid raised before the first append.  `fail850`: the
500 hPa step appended, then the 850 hPa step raised.  `failMslp`: 500 hPa
and 850 hPa appended, then the MSLP step raised.  `success`: all three
appended. -/
inductive Outcome : Type
  | fetchFail
  | fail500
  | fail850
  | failMslp
  | success
deriving DecidableEq

/-- Number of per-quantity appends the iteration performed before it
finished or raised: the appends happen in the fixed order 500 hPa,
850 hPa, MSLP (lines 66, 72, 77). -/
def Outcome.progress : Outcome → Nat
  | .fetchFail => 0
  | .fail500 => 0
  | .fail850 => 1
  | .failMslp => 2
  | .success => 3

/-- Whether the iteration wrote the temporary GRIB file
`temp_gfs_data.grib2` (lines 59-60): every outcome except a fetch
failure does. -/
def Outcome.fileCreated : Outcome → Bool
  | .fetchFail => false
  | _ => true

/-- Script-level mutable state threaded through the main loop: the three
accumulator lists `keyframe_data_list_500hpa`, `keyframe_data_list_850t`,
`keyframe_data_list_mslp` (lines 32-34) and whether the temporary file
currently exists on disk. -/
structure St (α : Type) : Type where
  l500 : List α
  l850 : List α
  lmslp : List α
  temp : Bool
deriving DecidableEq

/-- State before the loop starts: empty accumulators, no temp file. -/
def initSt (α : Type) : St α := ⟨[], [], [], false⟩

/-- One iteration of the main loop (lines 40-87) for the offset/outcome
pair `ho`: the `try` block appends the regridded quantities it reached
(and creates the temp file unless the fetch failed); the `except` block
only logs; the `finally` block removes the temp file when it exists, so
the iteration always ends with `temp = false`. -/
def stepOffset (regridded : Int → Qty → α) (s : St α) (ho : Int × Outcome) : St α :=
  let afterTry : St α :=
    match ho.2 with
    | .fetchFail => s
    | .fail500 => { s with temp := true }
    | .fail850 =>
        { s with temp := true, l500 := s.l500 ++ [regridded ho.1 .q500] }
    | .failMslp =>
        { s with temp := true, l500 := s.l500 ++ [regridded ho.1 .q500],
                 l850 := s.l850 ++ [regridded ho.1 .q850] }
    | .success =>
        { s with temp := true, l500 := s.l500 ++ [regridded ho.1 .q500],
                 l850 := s.l850 ++ [regridded ho.1 .q850],
                 lmslp := s.lmslp ++ [regridded ho.1 .qMslp] }
  { afterTry with temp := false }

/-- The whole main loop: fold `stepOffset` over the run description (one
offset/outcome pair per `KEYFRAME_HOURS` entry, in order). -/
def mainLoop (regridded : Int → Qty → α) (run : List (Int × Outcome)) : St α :=
  run.foldl (stepOffset regridded) (initSt α)

/-- The data-sufficiency gate (line 89):
`all(len(lst) >= 2 for lst in [l500, l850, lmslp])`. -/
def gate (s : St α) : Bool :=
  decide (2 ≤ s.l500.length) && decide (2 ≤ s.l850.length)
    && decide (2 ≤ s.lmslp.length)

/-- A display time label as produced by
`strftime('%m/%d(曜) %H:%M JST')` on the JST-converted frame time
(line 98): the label records month, day, day-of-week, hour and minute —
and drops the year.  Day-of-week is encoded 0 = Sunday … 6 = Saturday. -/
structure Label : Type where
  month : Nat
  day : Nat
  dow : Nat
  hour : Nat
  minute : Nat
deriving DecidableEq

/-- Gregorian (year, month, day) of a day count since 1970-01-01
(civil-from-days). -/
def civilFromDays (z0 : Nat) : Nat × Nat × Nat :=
  let z := z0 + 719468
  let era := z / 146097
  let doe := z % 146097
  let yoe := (doe - doe / 1460 + doe / 36524 - doe / 146096) / 365
  let y := yoe + era * 400
  let doy := doe - (365 * yoe + yoe / 4 - yoe / 100)
  let mp := (5 * doy + 2) / 153
  let d := doy - (153 * mp + 2) / 5 + 1
  let m := if mp < 10 then mp + 3 else mp - 9
  (if m ≤ 2 then y + 1 else y, m, d)

/-- The display label of a UTC instant `t` (seconds since epoch): convert
to JST (+9 h) and keep the month/day/weekday/hour/minute fields the
format string shows.  1970-01-01 was a Thursday, so day-of-week is
`(days + 4) % 7` with 0 = Sunday. -/
def timeLabel (t : Int) : Label :=
  let j := (t + 32400).toNat
  let days := j / 86400
  let rem := j % 86400
  let c := civilFromDays days
  { month := c.2.1, day := c.2.2, dow := (days + 4) % 7,
    hour := rem / 3600, minute := (rem % 3600) / 60 }

/-- One Plotly animation frame (lines 100-105): the time label used as
the frame name, and the three per-quantity payloads placed in it. -/
structure Frame (α : Type) : Type where
  label : Label
  f500 : α
  f850 : α
  fmslp : α
deriving DecidableEq

/-- The frame-generation loop body (lines 95-105):
`for k in range(len(KEYFRAME_HOURS))` reads `hours[k]` and the `k`-th
entry of each accumulator list in lockstep; an index past the end of any
list raises `IndexError`, which aborts the script before any output is
written — modelled as `none`.  Walking the four lists in lockstep until
`hours` is exhausted, failing if any accumulator runs out first, is
exactly that indexing behaviour. -/
def framesGo (anchor : Int) :
    List Int → List α → List α → List α → Option (List (Frame α))
  | [], _, _, _ => some []
  | h :: hs, a :: as, b :: bs, c :: cs =>
      (framesGo anchor hs as bs cs).map
        (fun fs => ⟨timeLabel (anchor + h * 3600), a, b, c⟩ :: fs)
  | _ :: _, _, _, _ => none

/-- Frame generation from the post-loop state. -/
def buildFrames (anchor : Int) (hours : List Int) (s : St α) :
    Option (List (Frame α)) :=
  framesGo anchor hours s.l500 s.l850 s.lmslp

/-- How a run can terminate without handing frames to the rendering
layer: the explicit `exit()` after the gate (line 91), or the uncaught
`IndexError` in the frame loop. -/
inductive RunError : Type
  | insufficientData
  | frameIndex
deriving DecidableEq

/-- The whole pipeline after the anchor is fixed: run the main loop,
apply the gate (exiting with no output when it fails), then generate the
frame sequence (the script crashes, producing no output, when the frame
loop indexes past a short list). -/
def runPipeline (regridded : Int → Qty → α) (anchor : Int)
    (run : List (Int × Outcome)) : Except RunError (List (Frame α)) :=
  let s := mainLoop regridded run
  if gate s then
    match buildFrames anchor (run.map Prod.fst) s with
    | some fs => .ok fs
    | none => .error .frameIndex
  else .error .insufficientData

/-- Payload instantiation that records the provenance of each regridded
array: which offset and which quantity it was computed from. -/
def tagPayload : Int → Qty → Int × Qty := fun h q => (h, q)

/-- The (issue-time, lead-hour) selection for one offset (lines 40-45):
`run_date = BASE_DATE; forecast_hour = hour; if hour < 0:
run_date = BASE_DATE + timedelta(hours=hour); forecast_hour = 0`.
Issue time in seconds, lead in hours. -/
def timeIndex (base : Int) (hour : Int) : Int × Int :=
  if hour < 0 then (base + hour * 3600, 0) else (base, hour)

/-- Anchor-time computation `get_latest_gfs_run` (lines 16-21) at
one-second granularity: subtract the 7-hour publication-latency margin,
floor the hour of day to a multiple of 6, and zero minutes and seconds
(`replace(hour=run_hour, minute=0, second=0, microsecond=0)`). -/
def get_latest_gfs_run (now_utc : Nat) : Nat :=
  let latest := now_utc - 25200
  let run_hour := (latest % 86400) / 3600 / 6 * 6
  latest / 86400 * 86400 + run_hour * 3600

/-- One scattered sample: (longitude, latitude, value), exact rational
coordinates and value. -/
structure Sample : Type where
  lon : ℚ
  lat : ℚ
  val : ℚ
deriving DecidableEq

/-- The (lon, lat) coordinates of a sample. -/
def samplePoint (s : Sample) : ℚ × ℚ := (s.lon, s.lat)

/-- Cross product of the vectors a→b and a→p (orientation test). -/
def cross2 (a b p : ℚ × ℚ) : ℚ :=
  (b.1 - a.1) * (p.2 - a.2) - (b.2 - a.2) * (p.1 - a.1)

/-- Membership of `p` in the closed nondegenerate triangle a b c: the
triangle has nonzero area and the three orientation signs of `p` against
its edges all agree (all nonnegative or all nonpositive). -/
def inTriangle (a b c p : ℚ × ℚ) : Bool :=
  let d1 := cross2 a b p
  let d2 := cross2 b c p
  let d3 := cross2 c a p
  decide (cross2 a b c ≠ 0) &&
    ((decide (0 ≤ d1) && decide (0 ≤ d2) && decide (0 ≤ d3))
      || (decide (d1 ≤ 0) && decide (d2 ≤ 0) && decide (d3 ≤ 0)))

/-- Membership of `p` in the closed segment from `a` to `b`: collinear
with the segment and inside its bounding box. -/
def onSegment (a b p : ℚ × ℚ) : Bool :=
  decide (cross2 a b p = 0) &&
    decide (min a.1 b.1 ≤ p.1) && decide (p.1 ≤ max a.1 b.1) &&
    decide (min a.2 b.2 ≤ p.2) && decide (p.2 ≤ max a.2 b.2)

/-- Membership of `p` in the convex hull of a finite point set: by
Carathéodory in the plane, `p` lies in the hull iff it lies in a
nondegenerate triangle with vertices among the points, or on a segment
between two of the points (which also covers `p` equal to a point). -/
def inHull (pts : List (ℚ × ℚ)) (p : ℚ × ℚ) : Bool :=
  (pts.any fun a => pts.any fun b => pts.any fun c => inTriangle a b c p)
    || (pts.any fun a => pts.any fun b => onSegment a b p)

/-- Modelled from the spec: `scipy.interpolate.griddata(..., method='cubic')`
as called on lines 65, 71 and 76 is an external library routine not part
of this repository.  Only its hull-masking contract is modelled — with
`method='cubic'` and the default `fill_value` (NaN, the call sites pass
no override), every query point outside the convex hull of the sample
points gets the no-value marker, and points inside get the value of the
piecewise-cubic interpolant, which is abstracted here as the parameter
`interp`.  The no-value marker NaN is modelled as `none`. -/
def griddata (interp : List Sample → ℚ × ℚ → ℚ) (samples : List Sample)
    (p : ℚ × ℚ) : Option ℚ :=
  if inHull (samples.map samplePoint) p then some (interp samples p) else none

/-- Kelvin-to-Celsius conversion applied on line 70:
`temp_c = temp_k - 273.15`. -/
def convertT850 (v : ℚ) : ℚ := v - 27315 / 100

/-- Pa-to-hPa conversion applied on line 75: `mslp = prmsl / 100`. -/
def convertMslp (v : ℚ) : ℚ := v / 100

/-- Apply a value conversion to one sample, keeping its coordinates
(xarray broadcasting of `- 273.15` and `/ 100` over the data variable
touches only the values, not the coordinate arrays). -/
def mapVal (g : ℚ → ℚ) (s : Sample) : Sample := { s with val := g s.val }

/-- The 500 hPa height regrid step (line 65): no unit conversion, the
raw `gh` samples go straight into `griddata`. -/
def regrid500 (interp : List Sample → ℚ × ℚ → ℚ) (raw : List Sample)
    (p : ℚ × ℚ) : Option ℚ :=
  griddata interp raw p

/-- The 850 hPa temperature step (lines 69-71): line 70 converts the
sample values to Celsius, then line 71 interpolates the converted
samples. -/
def regrid850 (interp : List Sample → ℚ × ℚ → ℚ) (raw : List Sample)
    (p : ℚ × ℚ) : Option ℚ :=
  griddata interp (raw.map (mapVal convertT850)) p

/-- The MSLP step (lines 74-76): line 75 scales the sample values to
hPa, then line 76 interpolates the converted samples. -/
def regridMslp (interp : List Sample → ℚ × ℚ → ℚ) (raw : List Sample)
    (p : ℚ × ℚ) : Option ℚ :=
  griddata interp (raw.map (mapVal convertMslp)) p

/-- The convert-after-interpolation pipeline the code does NOT use for
850 hPa temperature: interpolate the raw Kelvin samples, then convert
the interpolated grid value. -/
def convertAfter850 (interp : List Sample → ℚ × ℚ → ℚ) (raw : List Sample)
    (p : ℚ × ℚ) : Option ℚ :=
  (griddata interp raw p).map convertT850

/-- A concrete (non-pointwise) interpolant used to separate the two
pipelines: it returns the sum of all sample values. -/
def interpSum : List Sample → ℚ × ℚ → ℚ := fun ss _ => (ss.map Sample.val).sum

/-- Four samples at the corners of the unit square, all with value 300. -/
def sqSamples : List Sample :=
  [⟨0, 0, 300⟩, ⟨1, 0, 300⟩, ⟨1, 1, 300⟩, ⟨0, 1, 300⟩]

/-- What one loop iteration contributes to the accumulator of quantity
`q`, whose append happens once the iteration's progress reaches `thr`. -/
def pick (q : Qty) (thr : Nat) (regridded : Int → Qty → α)
    (ho : Int × Outcome) : Option α :=
  if thr ≤ ho.2.progress then some (regridded ho.1 q) else none

lemma foldl_stepOffset (regridded : Int → Qty → α)
    (run : List (Int × Outcome)) (s : St α) :
    run.foldl (stepOffset regridded) s =
      ⟨s.l500 ++ run.filterMap (pick .q500 1 regridded),
       s.l850 ++ run.filterMap (pick .q850 2 regridded),
       s.lmslp ++ run.filterMap (pick .qMslp 3 regridded),
       if run.isEmpty then s.temp else false⟩ := by
  induction run generalizing s with
  | nil => simp
  | cons ho t ih =>
    obtain ⟨h, o⟩ := ho
    cases o <;>
      simp [List.foldl_cons, stepOffset, ih, pick, Outcome.progress,
        List.filterMap_cons]

lemma mainLoop_eq (regridded : Int → Qty → α) (run : List (Int × Outcome)) :
    mainLoop regridded run =
      ⟨run.filterMap (pick .q500 1 regridded),
       run.filterMap (pick .q850 2 regridded),
       run.filterMap (pick .qMslp 3 regridded), false⟩ := by
  rw [mainLoop, foldl_stepOffset]
  cases run <;> simp [initSt]

lemma length_filterMap_pick (q : Qty) (thr : Nat)
    (regridded : Int → Qty → α) (run : List (Int × Outcome)) :
    (run.filterMap (pick q thr regridded)).length =
      run.countP (fun ho => decide (thr ≤ ho.2.progress)) := by
  induction run with
  | nil => rfl
  | cons ho t ih =>
    by_cases hp : thr ≤ ho.2.progress <;>
      simp [List.filterMap_cons, List.countP_cons, pick, hp, ih]

lemma progress_three_iff (o : Outcome) : 3 ≤ o.progress ↔ o = .success := by
  cases o <;> simp [Outcome.progress]

lemma filterMap_pick_of_success (q : Qty) (thr : Nat)
    (regridded : Int → Qty → α) (run : List (Int × Outcome))
    (hthr : thr ≤ 3) (hs : ∀ ho ∈ run, ho.2 = Outcome.success) :
    run.filterMap (pick q thr regridded) =
      run.map (fun ho => regridded ho.1 q) := by
  induction run with
  | nil => rfl
  | cons ho t ih =>
    have h1 : ho.2 = Outcome.success := hs ho (List.mem_cons_self ho t)
    have h2 : thr ≤ ho.2.progress := by rw [h1]; exact hthr
    simp only [List.filterMap_cons, pick, h2, if_pos, List.map_cons]
    rw [ih fun x hx => hs x (List.mem_cons_of_mem ho hx)]

lemma framesGo_all (anchor : Int) (run : List (Int × Outcome))
    (g1 g2 g3 : Int × Outcome → α) :
    framesGo anchor (run.map Prod.fst) (run.map g1) (run.map g2)
        (run.map g3) =
      some (run.map fun ho =>
        ⟨timeLabel (anchor + ho.1 * 3600), g1 ho, g2 ho, g3 ho⟩) := by
  induction run with
  | nil => rfl
  | cons ho t ih => simp [framesGo, ih]

lemma framesGo_some_le (anchor : Int) (hs : List Int) :
    ∀ (as bs cs : List α) (fs : List (Frame α)),
      framesGo anchor hs as bs cs = some fs →
        hs.length ≤ as.length ∧ hs.length ≤ bs.length ∧
          hs.length ≤ cs.length := by
  induction hs with
  | nil => intro as bs cs fs _; simp
  | cons h t ih =>
    intro as bs cs fs hgo
    match as, bs, cs with
    | [], _, _ => exact absurd hgo (by simp [framesGo])
    | _ :: _, [], _ => exact absurd hgo (by simp [framesGo])
    | _ :: _, _ :: _, [] => exact absurd hgo (by simp [framesGo])
    | a :: as, b :: bs, c :: cs =>
      simp only [framesGo, Option.map_eq_some'] at hgo
      obtain ⟨fs0, hfs0, _⟩ := hgo
      have := ih as bs cs fs0 hfs0
      simp only [List.length_cons]
      omega

lemma runPipeline_ok_iff (regridded : Int → Qty → α) (anchor : Int)
    (run : List (Int × Outcome)) (fs : List (Frame α)) :
    runPipeline regridded anchor run = .ok fs ↔
      (∀ ho ∈ run, ho.2 = Outcome.success) ∧ 2 ≤ run.length ∧
        fs = run.map (fun ho =>
          ⟨timeLabel (anchor + ho.1 * 3600), regridded ho.1 .q500,
           regridded ho.1 .q850, regridded ho.1 .qMslp⟩) := by
  constructor
  · intro hok
    rw [runPipeline] at hok
    by_cases hg : gate (mainLoop regridded run) = true
    swap
    · rw [if_neg hg] at hok; exact absurd hok (by simp)
    rw [if_pos hg] at hok
    rcases hbf : buildFrames anchor (run.map Prod.fst)
        (mainLoop regridded run) with _ | fs0
    · rw [hbf] at hok; exact absurd hok (by simp)
    rw [hbf] at hok
    have hfs : fs0 = fs := by simpa using hok
    subst hfs
    rw [buildFrames, mainLoop_eq] at hbf
    have hle := framesGo_some_le anchor (run.map Prod.fst) _ _ _ _ hbf
    simp only [length_filterMap_pick, List.length_map] at hle
    have hcle : run.countP (fun ho => decide (3 ≤ ho.2.progress))
        ≤ run.length := List.countP_le_length _
    have hall : ∀ ho ∈ run, 3 ≤ ho.2.progress := by
      have hceq : run.countP (fun ho => decide (3 ≤ ho.2.progress))
          = run.length := le_antisymm hcle hle.2.2
      intro ho hho
      simpa using List.countP_eq_length.mp hceq ho hho
    have hsucc : ∀ ho ∈ run, ho.2 = Outcome.success := fun ho hho =>
      (progress_three_iff ho.2).mp (hall ho hho)
    refine ⟨hsucc, ?_, ?_⟩
    · rw [gate, mainLoop_eq] at hg
      simp only [Bool.and_eq_true, decide_eq_true_iff] at hg
      calc 2 ≤ (run.filterMap (pick .qMslp 3 regridded)).length := hg.2
        _ ≤ run.length := by
            rw [length_filterMap_pick]; exact List.countP_le_length _
    · rw [filterMap_pick_of_success _ _ _ _ (by omega) hsucc,
        filterMap_pick_of_success _ _ _ _ (by omega) hsucc,
        filterMap_pick_of_success _ _ _ _ (by omega) hsucc,
        framesGo_all] at hbf
      simpa using hbf.symm
  · rintro ⟨hsucc, hlen, rfl⟩
    have hmap : mainLoop regridded run =
        ⟨run.map (fun ho => regridded ho.1 .q500),
         run.map (fun ho => regridded ho.1 .q850),
         run.map (fun ho => regridded ho.1 .qMslp), false⟩ := by
      rw [mainLoop_eq,
        filterMap_pick_of_success _ _ _ _ (by omega) hsucc,
        filterMap_pick_of_success _ _ _ _ (by omega) hsucc,
        filterMap_pick_of_success _ _ _ _ (by omega) hsucc]
    have hg : gate (mainLoop regridded run) = true := by
      rw [hmap, gate]
      simp only [Bool.and_eq_true, decide_eq_true_iff, List.length_map]
      omega
    rw [runPipeline, if_pos hg, hmap, buildFrames]
    rw [show (⟨run.map (fun ho => regridded ho.1 .q500),
         run.map (fun ho => regridded ho.1 .q850),
         run.map (fun ho => regridded ho.1 .qMslp), false⟩ : St α).l500
        = run.map (fun ho => regridded ho.1 .q500) from rfl]
    rw [show (⟨run.map (fun ho => regridded ho.1 .q500),
         run.map (fun ho => regridded ho.1 .q850),
         run.map (fun ho => regridded ho.1 .qMslp), false⟩ : St α).l850
        = run.map (fun ho => regridded ho.1 .q850) from rfl]
    rw [show (⟨run.map (fun ho => regridded ho.1 .q500),
         run.map (fun ho => regridded ho.1 .q850),
         run.map (fun ho => regridded ho.1 .qMslp), false⟩ : St α).lmslp
        = run.map (fun ho => regridded ho.1 .qMslp) from rfl]
    rw [framesGo_all]

lemma countP_progress_three_eq_success (run : List (Int × Outcome)) :
    run.countP (fun ho => decide (3 ≤ ho.2.progress)) =
      run.countP (fun ho => decide (ho.2 = Outcome.success)) := by
  induction run with
  | nil => rfl
  | cons ho t ih =>
    obtain ⟨h, o⟩ := ho
    cases o <;> simp only [List.countP_cons, ih] <;> rfl

/-- The spec sheet's example run: the nine standard offsets with two
mid-sequence fetch failures and seven successes. -/
def specExampleRun : List (Int × Outcome) :=
  [(-48, .success), (-36, .fetchFail), (-24, .success), (-12, .fetchFail),
   (0, .success), (12, .success), (24, .success), (36, .success),
   (48, .success)]

/-- A short run of two fully successful offsets (anchor
2013-01-01 00:00 UTC, offsets 0 h and +12 h). -/
def demoRun2 : List (Int × Outcome) := [(0, .success), (12, .success)]

/-- The frames the two-offset demo run emits: labels 01/01(Tue) 09:00
and 01/01(Tue) 21:00 JST, each carrying its own offset's three tagged
payloads. -/
def demoFrames2 : List (Frame (Int × Qty)) :=
  [⟨⟨1, 1, 2, 9, 0⟩, (0, .q500), (0, .q850), (0, .qMslp)⟩,
   ⟨⟨1, 1, 2, 21, 0⟩, (12, .q500), (12, .q850), (12, .qMslp)⟩]

/-- A run with one offset stopping after its first append, one stopping
after its second, and two full successes: the three accumulators end
with pairwise different lengths 4, 3, 2. -/
def mixedRun : List (Int × Outcome) :=
  [(0, .fail850), (12, .failMslp), (24, .success), (36, .success)]

/-- C1: the claim says a run with some failed offsets and at least the
threshold of successes emits exactly the successful offsets' frames in
original offset order.  The code instead always iterates
`range(len(KEYFRAME_HOURS))` in STEP 3 and indexes the shortened
accumulator lists, so on the spec's own example (nine offsets, two
mid-sequence fetch failures, seven successes) the gate passes but the
frame loop raises `IndexError` and the run emits nothing at all. -/
theorem frame_order_crash_on_partial_success :
    specExampleRun.countP (fun ho => decide (ho.2 = Outcome.success)) = 7 ∧
    runPipeline tagPayload 1356998400 specExampleRun =
      .error RunError.frameIndex := by
  exact ⟨by decide, by rfl⟩

/-- C2: whenever the pipeline emits a frame sequence at all, every frame
holds the three quantities of one single offset (in quantity order
500/850/MSLP) and that offset fully succeeded; and an offset that did
not fully succeed contributes none of its fields to any emitted frame.
(When any offset fails, the STEP 3 loop crashes and nothing is emitted,
so partially processed offsets can never leak fields into output.) -/
theorem frame_atomicity (anchor : Int) (run : List (Int × Outcome))
    (fs : List (Frame (Int × Qty)))
    (hok : runPipeline tagPayload anchor run = .ok fs) :
    (∀ f ∈ fs, f.f500.1 = f.f850.1 ∧ f.f500.1 = f.fmslp.1 ∧
      f.f500.2 = Qty.q500 ∧ f.f850.2 = Qty.q850 ∧ f.fmslp.2 = Qty.qMslp ∧
      (f.f500.1, Outcome.success) ∈ run) ∧
    ∀ (h : Int) (o : Outcome), (h, o) ∈ run → o ≠ Outcome.success →
      ∀ f ∈ fs, f.f500 ≠ (h, Qty.q500) ∧ f.f850 ≠ (h, Qty.q850) ∧
        f.fmslp ≠ (h, Qty.qMslp) := by
  obtain ⟨hsucc, hlen, rfl⟩ := (runPipeline_ok_iff _ _ _ _).mp hok
  constructor
  · intro f hf
    obtain ⟨ho, hho, rfl⟩ := List.mem_map.mp hf
    refine ⟨rfl, rfl, rfl, rfl, rfl, ?_⟩
    have h1 := hsucc ho hho
    have h2 : (ho.1, Outcome.success) = ho := by
      obtain ⟨a, b⟩ := ho; simp_all
    rw [show (tagPayload ho.1 Qty.q500).1 = ho.1 from rfl, h2]
    exact hho
  · intro h o hmem hne f hf
    exact absurd (hsucc (h, o) hmem) hne

/-- Witness for C2 at a concrete run of two fully successful offsets. -/
theorem frame_atomicity_witness :
    runPipeline tagPayload 1356998400 demoRun2 = .ok demoFrames2 ∧
    ∀ f ∈ demoFrames2, f.f500.1 = f.f850.1 ∧ f.f500.1 = f.fmslp.1 ∧
      f.f500.2 = Qty.q500 ∧ f.f850.2 = Qty.q850 ∧ f.fmslp.2 = Qty.qMslp ∧
      (f.f500.1, Outcome.success) ∈ demoRun2 :=
  ⟨by rfl, (frame_atomicity 1356998400 demoRun2 demoFrames2 (by rfl)).1⟩

/-- C3: a run with fewer than two fully successful offsets trips the
`len >= 2` gate, prints the error and exits with no output at all; and
any emitted frame sequence has at most one frame per requested offset. -/
theorem threshold_insufficient_data (regridded : Int → Qty → α)
    (anchor : Int) (run : List (Int × Outcome)) :
    (run.countP (fun ho => decide (ho.2 = Outcome.success)) < 2 →
      runPipeline regridded anchor run = .error RunError.insufficientData) ∧
    ∀ fs, runPipeline regridded anchor run = .ok fs →
      fs.length ≤ run.length := by
  constructor
  · intro hcnt
    have hkey : (mainLoop regridded run).lmslp.length < 2 := by
      rw [mainLoop_eq]
      simp only [length_filterMap_pick]
      rw [countP_progress_three_eq_success]
      exact hcnt
    have hd3 : decide (2 ≤ (mainLoop regridded run).lmslp.length) = false :=
      decide_eq_false_iff_not.mpr (by omega)
    have hg : gate (mainLoop regridded run) = false := by
      rw [gate, hd3, Bool.and_false]
    simp only [runPipeline, hg, Bool.false_eq_true, if_false]
  · intro fs hok
    obtain ⟨_, _, rfl⟩ := (runPipeline_ok_iff _ _ _ _).mp hok
    simp

/-- Witness for C3: one success out of two offsets gives the
`InsufficientData` exit. -/
theorem threshold_insufficient_data_witness :
    ([((0 : Int), Outcome.success), ((12 : Int), Outcome.fetchFail)].countP
        (fun ho => decide (ho.2 = Outcome.success)) < 2) ∧
    runPipeline tagPayload 1356998400
        [((0 : Int), Outcome.success), ((12 : Int), Outcome.fetchFail)] =
      .error RunError.insufficientData :=
  ⟨by decide,
   (threshold_insufficient_data tagPayload 1356998400 _).1 (by decide)⟩

/-- C9: the `finally` block removes the temporary GRIB file whenever it
exists, so every loop iteration — fetch failure, mid-processing failure
or success — ends with no temporary file on disk, and the state after
the whole loop has none either. -/
theorem temp_file_always_released (regridded : Int → Qty → α) :
    (∀ (s : St α) (ho : Int × Outcome),
      (stepOffset regridded s ho).temp = false) ∧
    ∀ run : List (Int × Outcome), (mainLoop regridded run).temp = false := by
  refine ⟨fun s ho => rfl, fun run => by rw [mainLoop_eq]⟩

/-- C10: the accumulator lengths count how many iterations reached each
append (no rollback of earlier appends on a later failure), the gate is
exactly the three independent `len >= 2` tests, and a concrete mixed run
ends with pairwise different lengths 4, 3, 2 and still passes the gate. -/
theorem partial_appends_not_rolled_back :
    (∀ (α : Type) (regridded : Int → Qty → α) (run : List (Int × Outcome)),
      (mainLoop regridded run).l500.length =
        run.countP (fun ho => decide (1 ≤ ho.2.progress)) ∧
      (mainLoop regridded run).l850.length =
        run.countP (fun ho => decide (2 ≤ ho.2.progress)) ∧
      (mainLoop regridded run).lmslp.length =
        run.countP (fun ho => decide (3 ≤ ho.2.progress)) ∧
      (gate (mainLoop regridded run) = true ↔
        2 ≤ (mainLoop regridded run).l500.length ∧
        2 ≤ (mainLoop regridded run).l850.length ∧
        2 ≤ (mainLoop regridded run).lmslp.length)) ∧
    (mainLoop tagPayload mixedRun).l500.length = 4 ∧
    (mainLoop tagPayload mixedRun).l850.length = 3 ∧
    (mainLoop tagPayload mixedRun).lmslp.length = 2 ∧
    gate (mainLoop tagPayload mixedRun) = true := by
  refine ⟨fun α regridded run => ⟨?_, ?_, ?_, ?_⟩,
    by decide, by decide, by decide, by decide⟩
  · rw [mainLoop_eq]; simp only [length_filterMap_pick]
  · rw [mainLoop_eq]; simp only [length_filterMap_pick]
  · rw [mainLoop_eq]; simp only [length_filterMap_pick]
  · simp only [gate, Bool.and_eq_true, decide_eq_true_iff, and_assoc]

/-- Witness for C10: the gate iff applied at the mixed run. -/
theorem partial_appends_not_rolled_back_witness :
    gate (mainLoop tagPayload mixedRun) = true :=
  (partial_appends_not_rolled_back.1 (Int × Qty) tagPayload
    mixedRun).2.2.2.mpr (by decide)

/-- Two distinct offsets that collide on the display label: with anchor
2013-01-01 00:00 UTC, offsets 0 h and +52584 h (= 2191 days = 313 weeks)
land on 2013-01-01 and 2019-01-01, both 09:00 JST on a Tuesday — the
label format drops the year, so both read 01/01(火) 09:00 JST. -/
def dupLabelRun : List (Int × Outcome) := [(0, .success), (52584, .success)]

/-- C4 counterexample: the claim says a label collision between two
distinct offsets makes frame assembly fail with `DuplicateFrameLabel`.
The code has no such check: on the colliding run it succeeds and emits
two frames carrying the identical label. -/
theorem dup_label_counterexample :
    runPipeline tagPayload 1356998400 dupLabelRun =
      .ok [⟨⟨1, 1, 2, 9, 0⟩, (0, .q500), (0, .q850), (0, .qMslp)⟩,
           ⟨⟨1, 1, 2, 9, 0⟩, (52584, .q500), (52584, .q850),
            (52584, .qMslp)⟩] ∧
    (0 : Int) ≠ 52584 := by
  exact ⟨by rfl, by decide⟩

/-- C4 amended: the code never rejects or overwrites on a label
collision — in any run where every offset fully succeeds (and the gate
is met), exactly one frame per offset is emitted, each carrying its
computed label, even when two distinct offsets map to the same label. -/
theorem dup_label_amended (regridded : Int → Qty → α) (anchor : Int)
    (run : List (Int × Outcome))
    (hsucc : ∀ ho ∈ run, ho.2 = Outcome.success) (hlen : 2 ≤ run.length) :
    runPipeline regridded anchor run =
      .ok (run.map fun ho =>
        ⟨timeLabel (anchor + ho.1 * 3600), regridded ho.1 .q500,
         regridded ho.1 .q850, regridded ho.1 .qMslp⟩) :=
  (runPipeline_ok_iff regridded anchor run _).mpr ⟨hsucc, hlen, rfl⟩

/-- Witness for the amended C4 at the colliding run itself. -/
theorem dup_label_amended_witness :
    runPipeline tagPayload 1356998400 dupLabelRun =
      .ok (dupLabelRun.map fun ho =>
        ⟨timeLabel (1356998400 + ho.1 * 3600), tagPayload ho.1 .q500,
         tagPayload ho.1 .q850, tagPayload ho.1 .qMslp⟩) :=
  dup_label_amended tagPayload 1356998400 dupLabelRun (by decide) (by decide)

/-- C5: the offset-to-(issue-time, lead-hour) rule of lines 40-45: a
nonnegative offset keeps the anchor as issue time with the offset as
lead, a negative offset backs the issue time up by the offset and uses
lead 0; the map is total (no failure) and processing `KEYFRAME_HOURS`
in order maps each position to its own offset's pair. -/
theorem time_index_pure_mapping (base hour : Int) (hours : List Int) :
    (0 ≤ hour → timeIndex base hour = (base, hour)) ∧
    (hour < 0 → timeIndex base hour = (base + hour * 3600, 0)) ∧
    (hours.map (timeIndex base)).length = hours.length ∧
    ∀ k : Nat, (hours.map (timeIndex base))[k]? =
      (hours[k]?).map (timeIndex base) := by
  refine ⟨?_, ?_, by simp, fun k => by simp⟩
  · intro h0; rw [timeIndex, if_neg (by omega)]
  · intro hneg; rw [timeIndex, if_pos hneg]

/-- Witness for C5 at offsets +24 and -36 of the anchor
2013-01-01 00:00 UTC. -/
theorem time_index_pure_mapping_witness :
    ((0 : Int) ≤ 24 ∧ timeIndex 1356998400 24 = (1356998400, 24)) ∧
    ((-36 : Int) < 0 ∧
      timeIndex 1356998400 (-36) = (1356998400 + (-36) * 3600, 0)) :=
  ⟨⟨by decide, (time_index_pure_mapping 1356998400 24 []).1 (by decide)⟩,
   ⟨by decide, (time_index_pure_mapping 1356998400 (-36) []).2.1 (by decide)⟩⟩

/-- C6: any query point outside the convex hull of the scattered sample
points gets the no-value marker from the regridding call, never an
interpolated number — for every interpolant the cubic method could
compute inside the hull. -/
theorem no_extrapolation_outside_hull (interp : List Sample → ℚ × ℚ → ℚ)
    (samples : List Sample) (p : ℚ × ℚ)
    (hout : inHull (samples.map samplePoint) p = false) :
    griddata interp samples p = none := by
  simp [griddata, hout]

/-- Witness for C6: the point (2, 2) lies outside the unit square's
hull and regrids to the no-value marker. -/
theorem no_extrapolation_outside_hull_witness :
    inHull (sqSamples.map samplePoint) (2, 2) = false ∧
    griddata interpSum sqSamples (2, 2) = none :=
  ⟨by norm_num [inHull, sqSamples, samplePoint, inTriangle, cross2, onSegment],
   no_extrapolation_outside_hull interpSum sqSamples (2, 2)
     (by norm_num [inHull, sqSamples, samplePoint, inTriangle, cross2,
       onSegment])⟩

/-- C7: both affine unit conversions act on the sample values before
interpolation: the 850 hPa step interpolates the Celsius-converted
samples and the MSLP step the hPa-scaled samples (coordinates
untouched), for every interpolant; and the pipeline is not the
convert-afterwards one — on a concrete non-pointwise interpolant the
two orders give different grid values. -/
theorem conversions_before_interpolation
    (interp : List Sample → ℚ × ℚ → ℚ) (raw : List Sample) (p : ℚ × ℚ) :
    regrid850 interp raw p = griddata interp (raw.map (mapVal convertT850)) p ∧
    regridMslp interp raw p = griddata interp (raw.map (mapVal convertMslp)) p ∧
    (raw.map (mapVal convertT850)).map Sample.val =
      raw.map (fun s => s.val - 27315 / 100) ∧
    (raw.map (mapVal convertT850)).map samplePoint = raw.map samplePoint ∧
    (raw.map (mapVal convertMslp)).map Sample.val =
      raw.map (fun s => s.val / 100) ∧
    (raw.map (mapVal convertMslp)).map samplePoint = raw.map samplePoint ∧
    regrid850 interpSum sqSamples (1/2, 1/2) ≠
      convertAfter850 interpSum sqSamples (1/2, 1/2) := by
  refine ⟨rfl, rfl, ?_, ?_, ?_, ?_,
    by norm_num [regrid850, convertAfter850, griddata, inHull, sqSamples,
      samplePoint, inTriangle, cross2, onSegment, mapVal, convertT850,
      interpSum]⟩ <;>
    (rw [List.map_map]; exact rfl)

/-- C8: for any current time (at least the 7-hour margin past the
epoch), the computed anchor run time is at most the current time minus
the 7-hour publication-latency margin, and is aligned to the 6-hour
cycle boundary: divisible by 21600 s, hence hour-of-day a multiple of 6
with zero minutes and seconds. -/
theorem anchor_cycle_invariant (now_utc : Nat) (h : 25200 ≤ now_utc) :
    get_latest_gfs_run now_utc + 25200 ≤ now_utc ∧
    get_latest_gfs_run now_utc % 21600 = 0 ∧
    get_latest_gfs_run now_utc % 86400 / 3600 % 6 = 0 ∧
    get_latest_gfs_run now_utc % 3600 = 0 := by
  simp only [get_latest_gfs_run]
  omega

/-- Witness for C8 at 2013-01-01 08:00 UTC. -/
theorem anchor_cycle_invariant_witness :
    25200 ≤ 1357027200 ∧
    (get_latest_gfs_run 1357027200 + 25200 ≤ 1357027200 ∧
     get_latest_gfs_run 1357027200 % 21600 = 0 ∧
     get_latest_gfs_run 1357027200 % 86400 / 3600 % 6 = 0 ∧
     get_latest_gfs_run 1357027200 % 3600 = 0) :=
  ⟨by decide, anchor_cycle_invariant 1357027200 (by decide)⟩
